import Mathlib

/-!
Verification development for the jupyterpost repository.

The service side (`src/jupyterpost/jupyterpost.py`) is embedded as pure
functions: the Mattermost platform is a function from wire requests to
responses, the process environment is an explicit record, and each pipeline
function returns the ordered list of wire requests it issued (its trace)
together with an `Except Failure` result.  A raised Python exception is an
`Except.error`; an uncaught `httpx.HTTPStatusError` is `Failure.httpStatusError`.

The client side (`src/jupyterpost/client.py` / the identical caller-side
`post` in `jupyterpost.py`) is embedded as a function returning either the
error message of the `ValueError` raised before any HTTP request, or the one
HTTP request it would send.
-/

set_option maxHeartbeats 1000000

namespace Jupyterpost

instance {ε α : Type} [DecidableEq ε] [DecidableEq α] : DecidableEq (Except ε α) :=
  fun x y =>
    match x, y with
    | .ok a, .ok b =>
        if h : a = b then .isTrue (by rw [h]) else .isFalse (by simp [h])
    | .error a, .error b =>
        if h : a = b then .isTrue (by rw [h]) else .isFalse (by simp [h])
    | .ok _, .error _ => .isFalse (by simp)
    | .error _, .ok _ => .isFalse (by simp)

/-- Python truthiness of an optional string (`None` and `""` are falsy). -/
def pyTruthy : Option String → Bool
  | none => false
  | some s => !s.data.isEmpty

/-- Python `a or b` on optional strings: `a` when truthy, else `b` as-is. -/
def pyOr (a b : Option String) : Option String := if pyTruthy a then a else b

/-- Python f-string interpolation of a possibly-`None` string value. -/
def pyStr : Option String → String
  | none => "None"
  | some s => s

/-- Python truthiness of optional bytes (`if file_:`): `None` and `b""` are falsy. -/
def pyTruthyBytes : Option (List Nat) → Bool
  | none => false
  | some bs => !bs.isEmpty

/-- Character-list core of Python `str.startswith`. -/
def startsWithChars : List Char → List Char → Bool
  | [], _ => true
  | _ :: _, [] => false
  | p :: ps, c :: cs => (p = c) && startsWithChars ps cs

/-- Python `s.startswith(pat)`. -/
def py_startswith (s pat : String) : Bool := startsWithChars pat.data s.data

/-- Python `s[1:]`. -/
def py_drop1 (s : String) : String := ⟨s.data.drop 1⟩

/-- The body of an HTTP request issued through `httpx.request`:
`json=[me, other]` for `channels/direct`, `json={"user_id": me}` for the
channel join, `json={"channel_id": ..., "message": ..., "file_ids": ...}`
for `posts`, and `params={"channel_id": ..., "filename": ...}, data=file_`
for `files`.  GET requests carry no body. -/
inductive ReqBody where
  | noBody
  | jsonPair (a b : String)
  | jsonUserId (user_id : String)
  | jsonPost (channel_id message : String) (file_ids : List String)
  | fileData (channel_id filename : String) (bytes : List Nat)
  deriving DecidableEq

/-- One wire request: HTTP method, full URL (base URL ++ path), the
`Authorization` header value, and the body. -/
structure WireRequest where
  method : String
  url : String
  auth : String
  body : ReqBody
  deriving DecidableEq

/-- The JSON fields of a Mattermost response this program reads: `["id"]`,
and for uploads `["file_infos"]`, where each list entry stands for that
file_info's `"id"` field. -/
structure MmResponse where
  id : String
  file_infos : List String
  deriving DecidableEq

/-- Outcome of one HTTP exchange: a decoded 2xx JSON response, or a non-2xx
status (which `response.raise_for_status()` turns into an exception). -/
inductive ApiResult where
  | ok (r : MmResponse)
  | err (status : Nat)
  deriving DecidableEq

/-- The chat platform, as the service observes it: a response for every
possible wire request. -/
def Platform := WireRequest → ApiResult

/-- The ambient process environment read by the service
(`os.environ` / `os.getenv`). -/
structure Env where
  mattermost_url : Option String
  mattermost_token : Option String
  mattermost_team : Option String
  deriving DecidableEq

/-- The exceptions `hub_post_message` can raise.  `keyError` is Python's
`KeyError` from `os.environ[...]`; `httpStatusError` is an uncaught
`httpx.HTTPStatusError` with its status code; the three `ValueError`
constructors carry the data of their message strings:
`userNotExist channel` is `ValueError(f"{channel} does not exist")`,
`notTeamMember channel team` is
`ValueError(f"{channel} is not a member of {team}")`,
`channelNotExistOrPrivate channel` is
`ValueError(f"{channel} does not exist or is private")`;
`indexError` is the `IndexError` from `upload["file_infos"][0]` on an
empty list. -/
inductive Failure where
  | keyError (name : String)
  | httpStatusError (status : Nat)
  | userNotExist (channel : String)
  | notTeamMember (channel team : String)
  | channelNotExistOrPrivate (channel : String)
  | indexError
  deriving DecidableEq

/-- The function `mm_api_call` (jupyterpost.py lines 24-48): read `MATTERMOST_URL` and
`MATTERMOST_TOKEN` from the environment (a missing one raises `KeyError`
before any request is sent), send the request with a bearer-token header,
and raise on a non-2xx status.  Returns the request actually sent (if any)
together with the outcome. -/
def mm_api_call (env : Env) (plat : Platform) (method path : String)
    (body : ReqBody) : Option WireRequest × Except Failure MmResponse :=
  match env.mattermost_url with
  | none => (none, .error (.keyError "MATTERMOST_URL"))
  | some base =>
    match env.mattermost_token with
    | none => (none, .error (.keyError "MATTERMOST_TOKEN"))
    | some token =>
      let req : WireRequest := ⟨method, base ++ path, "Bearer " ++ token, body⟩
      match plat req with
      | .ok r => (some req, .ok r)
      | .err s => (some req, .error (.httpStatusError s))

/-- The `try/except httpx.HTTPStatusError` pattern of `hub_post_message`: a
caught HTTP-status exception with code 404 is replaced by the `ValueError`
`v`; every other exception (a different status, or a `KeyError`) is
re-raised unchanged. -/
def handle404 (e : Failure) (v : Failure) : Failure :=
  match e with
  | .httpStatusError 404 => v
  | _ => e

/-- Direct-message branch of `hub_post_message` (lines 70-89): user lookup
(404 becomes `ValueError`), team lookup (no 404 handling), membership check
(404 becomes `ValueError`), then direct-channel creation.  `team` is the
already-defaulted team name; `me` the bot's user id. -/
def resolve_direct (env : Env) (plat : Platform) (channel : String)
    (team : Option String) (me : String) :
    List WireRequest × Except Failure MmResponse :=
  match mm_api_call env plat "get" ("users/username/" ++ py_drop1 channel) .noBody with
  | (r1, .error e) => (r1.toList, .error (handle404 e (.userNotExist channel)))
  | (r1, .ok other) =>
    match mm_api_call env plat "get" ("teams/name/" ++ pyStr team) .noBody with
    | (r2, .error e) => (r1.toList ++ r2.toList, .error e)
    | (r2, .ok teamJ) =>
      match mm_api_call env plat "get"
          ("teams/" ++ teamJ.id ++ "/members/" ++ other.id) .noBody with
      | (r3, .error e) =>
          (r1.toList ++ r2.toList ++ r3.toList,
           .error (handle404 e (.notTeamMember channel (pyStr team))))
      | (r3, .ok _) =>
        match mm_api_call env plat "post" "channels/direct" (.jsonPair me other.id) with
        | (r4, o4) => (r1.toList ++ r2.toList ++ r3.toList ++ r4.toList, o4)

/-- Named-channel branch of `hub_post_message` (lines 90-104): channel lookup
(404 becomes `ValueError`), then the idempotent join of the bot into the
channel. -/
def resolve_named (env : Env) (plat : Platform) (channel : String)
    (team : Option String) (me : String) :
    List WireRequest × Except Failure MmResponse :=
  match mm_api_call env plat "get"
      ("teams/name/" ++ pyStr team ++ "/channels/name/" ++ channel) .noBody with
  | (r1, .error e) =>
      (r1.toList, .error (handle404 e (.channelNotExistOrPrivate channel)))
  | (r1, .ok ch) =>
    match mm_api_call env plat "post"
        ("channels/" ++ ch.id ++ "/members") (.jsonUserId me) with
    | (r2, .error e) => (r1.toList ++ r2.toList, .error e)
    | (r2, .ok _) => (r1.toList ++ r2.toList, .ok ch)

/-- Destination resolution part of `hub_post_message` (lines 68-106):
`users/me`, then the direct or named branch, ending with `channel["id"]`. -/
def resolve_channel (env : Env) (plat : Platform) (channel : String)
    (team : Option String) : List WireRequest × Except Failure String :=
  match mm_api_call env plat "get" "users/me" .noBody with
  | (r0, .error e) => (r0.toList, .error e)
  | (r0, .ok meJ) =>
    match (if py_startswith channel "@" then
             resolve_direct env plat channel team meJ.id
           else
             resolve_named env plat channel team meJ.id) with
    | (tr, .error e) => (r0.toList ++ tr, .error e)
    | (tr, .ok ch) => (r0.toList ++ tr, .ok ch.id)

/-- Delivery part of `hub_post_message` (lines 108-122): optional upload of
the attachment (with fixed filename `upload.png`), whose first file_info id
becomes the single file reference, then post creation. -/
def deliver_message (env : Env) (plat : Platform) (channel_id message : String)
    (file_ : Option (List Nat)) : List WireRequest × Except Failure MmResponse :=
  if pyTruthyBytes file_ then
    match mm_api_call env plat "post" "files"
        (.fileData channel_id "upload.png" (file_.getD [])) with
    | (r1, .error e) => (r1.toList, .error e)
    | (r1, .ok upload) =>
      match upload.file_infos with
      | [] => (r1.toList, .error .indexError)
      | fid :: _ =>
        match mm_api_call env plat "post" "posts"
            (.jsonPost channel_id message [fid]) with
        | (r2, o2) => (r1.toList ++ r2.toList, o2)
  else
    match mm_api_call env plat "post" "posts" (.jsonPost channel_id message []) with
    | (r2, o2) => (r2.toList, o2)

/-- The function `hub_post_message` (lines 51-122): default the team name from
`MATTERMOST_TEAM` with Python `or`, resolve the destination to a channel id,
then deliver.  The first component is the ordered trace of wire requests
issued; the second the returned post JSON or the raised exception. -/
def hub_post_message (env : Env) (plat : Platform) (message channel : String)
    (file_ : Option (List Nat)) (team_name : Option String) :
    List WireRequest × Except Failure MmResponse :=
  match resolve_channel env plat channel (pyOr team_name env.mattermost_team) with
  | (tr, .error e) => (tr, .error e)
  | (tr, .ok channel_id) =>
    match deliver_message env plat channel_id message file_ with
    | (tr2, o2) => (tr ++ tr2, o2)

/-- The environment variables read by the caller-side `post`. -/
structure ClientEnv where
  jupyterpost_url : Option String
  jpy_api_token : Option String
  deriving DecidableEq

/-- The one HTTP request the caller-side `post` sends on the happy path:
URL, `Authorization` header value, form fields, and the optional `files`
part (omitted when the attachment is falsy). -/
structure HttpPostRequest where
  url : String
  auth : String
  message : String
  channel : String
  file : Option (List Nat)
  deriving DecidableEq

/-- Caller-side `post` (client.py lines 14-52, identical to jupyterpost.py
lines 204-244) up to the point the HTTP request is sent: default the URL and
token from the environment with Python `or`, raise `ValueError` (the carried
message) when either is missing, and otherwise produce the single request
that `httpx.post` sends.  The matplotlib-figure conversion branch is not
modelled: attachments here are already bytes. -/
def post (cenv : ClientEnv) (message channel : String)
    (attachment : Option (List Nat)) (service_url token : Option String) :
    Except String HttpPostRequest :=
  let su := pyOr service_url cenv.jupyterpost_url
  let tk := pyOr token cenv.jpy_api_token
  if pyTruthy su = false then .error "No service URL given"
  else if pyTruthy tk = false then .error "No API token given"
  else .ok ⟨pyStr su, "token " ++ pyStr tk, message, channel,
            if pyTruthyBytes attachment then attachment else none⟩

/-- A wire request is the post-creation call iff it carries the `posts`
JSON body (only the `POST posts` call site builds such a body). -/
def isPostCreation (c : WireRequest) : Bool :=
  match c.body with
  | .jsonPost _ _ _ => true
  | _ => false

/-- A wire request is the attachment-upload call iff it carries file data
(only the `POST files` call site builds such a body). -/
def isUpload (c : WireRequest) : Bool :=
  match c.body with
  | .fileData _ _ _ => true
  | _ => false

/-- A wire request is the channel-join call iff it carries a `user_id` JSON
body (only the `POST channels/{id}/members` call site builds one). -/
def isChannelJoin (c : WireRequest) : Bool :=
  match c.body with
  | .jsonUserId _ => true
  | _ => false

/-- A wire request is the direct-channel-creation call iff it carries the
two-user JSON pair (only the `POST channels/direct` call site builds one). -/
def isDirectCreate (c : WireRequest) : Bool :=
  match c.body with
  | .jsonPair _ _ => true
  | _ => false

/-- The spec's `DestinationNotFound` failure kind: the two `ValueError`s
raised for an absent user and for an absent-or-private channel. -/
def isDestinationNotFound : Failure → Bool
  | .userNotExist _ => true
  | .channelNotExistOrPrivate _ => true
  | _ => false

/-- The spec's `NotAuthorizedMember` failure kind. -/
def isNotAuthorizedMember : Failure → Bool
  | .notTeamMember _ _ => true
  | _ => false

/-- The spec's `UpstreamError` failure kind: an uncaught non-2xx platform
status. -/
def isUpstreamError : Failure → Bool
  | .httpStatusError _ => true
  | _ => false

/-- Every request in the list received a 2xx response from the platform. -/
def allOk (plat : Platform) (l : List WireRequest) : Prop :=
  ∀ c ∈ l, ∃ r, plat c = .ok r

/-- The predicate `postsOnlyAfter ensure tr` holds when, scanning the trace in order, no
post-creation request occurs before the first request satisfying `ensure`. -/
def postsOnlyAfter (ensure : WireRequest → Bool) : List WireRequest → Bool
  | [] => true
  | c :: rest =>
    if isPostCreation c then false
    else if ensure c then true
    else postsOnlyAfter ensure rest

/-- The membership-ensuring step of the branch taken for `channel`: the
direct-channel creation call when `channel` is a direct-message destination,
the channel-join call otherwise. -/
def ensureMember (channel : String) (c : WireRequest) : Bool :=
  if py_startswith channel "@" then isDirectCreate c else isChannelJoin c

/-- The `file_ids` list of the first post-creation request in a trace. -/
def postedFileIds : List WireRequest → Option (List String)
  | [] => none
  | c :: rest =>
    match c.body with
    | .jsonPost _ _ fids => some fids
    | _ => postedFileIds rest

/-! Wire requests of the individual call sites, as functions of the base URL
`B` and token `T` from the environment.  These are statement abbreviations;
the pipeline definitions above build the same values through `mm_api_call`. -/

/-- The `GET users/me` request. -/
def reqMe (B T : String) : WireRequest :=
  ⟨"get", B ++ "users/me", "Bearer " ++ T, .noBody⟩

/-- The `GET users/username/{name}` request of the direct branch. -/
def dirReqUser (B T channel : String) : WireRequest :=
  ⟨"get", B ++ ("users/username/" ++ py_drop1 channel), "Bearer " ++ T, .noBody⟩

/-- The `GET teams/name/{team}` request of the direct branch. -/
def dirReqTeam (B T : String) (team : Option String) : WireRequest :=
  ⟨"get", B ++ ("teams/name/" ++ pyStr team), "Bearer " ++ T, .noBody⟩

/-- The `GET teams/{team_id}/members/{user_id}` request of the direct branch. -/
def dirReqMember (B T teamId otherId : String) : WireRequest :=
  ⟨"get", B ++ ("teams/" ++ teamId ++ "/members/" ++ otherId), "Bearer " ++ T, .noBody⟩

/-- The `POST channels/direct` request of the direct branch. -/
def dirReqCreate (B T me otherId : String) : WireRequest :=
  ⟨"post", B ++ "channels/direct", "Bearer " ++ T, .jsonPair me otherId⟩

/-- The `GET teams/name/{team}/channels/name/{channel}` request of the named
branch. -/
def namedReqLookup (B T : String) (team : Option String) (channel : String) :
    WireRequest :=
  ⟨"get", B ++ ("teams/name/" ++ pyStr team ++ "/channels/name/" ++ channel),
   "Bearer " ++ T, .noBody⟩

/-- The `POST channels/{id}/members` join request of the named branch. -/
def namedReqJoin (B T chId me : String) : WireRequest :=
  ⟨"post", B ++ ("channels/" ++ chId ++ "/members"), "Bearer " ++ T, .jsonUserId me⟩

/-- The `POST files` upload request. -/
def reqUpload (B T cid : String) (bytes : List Nat) : WireRequest :=
  ⟨"post", B ++ "files", "Bearer " ++ T, .fileData cid "upload.png" bytes⟩

/-- The `POST posts` post-creation request. -/
def reqPosts (B T cid msg : String) (fids : List String) : WireRequest :=
  ⟨"post", B ++ "posts", "Bearer " ++ T, .jsonPost cid msg fids⟩

/-! Concrete environments and platforms used as witnesses. -/

/-- A concrete environment: base URL `A/`, token `tok`, default team `eng`. -/
def envA : Env := ⟨some "A/", some "tok", some "eng"⟩

/-- The environment `envA` with a different base URL. -/
def envB : Env := ⟨some "B/", some "tok", some "eng"⟩

/-- A platform on which the direct-message destination `@alice` fully
resolves and delivery succeeds. -/
def platD : Platform := fun r =>
  if r.url = "A/users/me" then .ok ⟨"me", []⟩
  else if r.url = "A/users/username/alice" then .ok ⟨"uA", []⟩
  else if r.url = "A/teams/name/eng" then .ok ⟨"tE", []⟩
  else if r.url = "A/teams/tE/members/uA" then .ok ⟨"", []⟩
  else if r.url = "A/channels/direct" then .ok ⟨"dm1", []⟩
  else if r.url = "A/files" then .ok ⟨"up", ["f1"]⟩
  else if r.url = "A/posts" then .ok ⟨"post9", []⟩
  else .err 404

/-- The platform `platD` with a different post-creation response (lookups and
direct-channel creation unchanged). -/
def platD2 : Platform := fun r =>
  if r.method = "post" ∧ isPostCreation r = true then .ok ⟨"postX", []⟩
  else platD r

/-- A platform where the user `alice` exists but the team lookup answers
404. -/
def platNoTeam : Platform := fun r =>
  if r.url = "A/users/me" then .ok ⟨"me", []⟩
  else if r.url = "A/users/username/alice" then .ok ⟨"uA", []⟩
  else .err 404

/-- A platform where the user `bob` exists and the team exists, but the
membership check answers 404. -/
def platNotMember : Platform := fun r =>
  if r.url = "A/users/me" then .ok ⟨"me", []⟩
  else if r.url = "A/users/username/bob" then .ok ⟨"uB", []⟩
  else if r.url = "A/teams/name/eng" then .ok ⟨"tE", []⟩
  else .err 404

/-- A platform on which the named channel `general` resolves and delivery
succeeds. -/
def platN : Platform := fun r =>
  if r.url = "A/users/me" then .ok ⟨"me", []⟩
  else if r.url = "A/teams/name/eng/channels/name/general" then .ok ⟨"chG", []⟩
  else if r.url = "A/channels/chG/members" then .ok ⟨"", []⟩
  else if r.url = "A/files" then .ok ⟨"up", ["f9"]⟩
  else if r.url = "A/posts" then .ok ⟨"post2", []⟩
  else .err 404

/-- A platform where `general` resolves but the attachment upload answers
500. -/
def platUploadFail : Platform := fun r =>
  if r.url = "A/users/me" then .ok ⟨"me", []⟩
  else if r.url = "A/teams/name/eng/channels/name/general" then .ok ⟨"chG", []⟩
  else if r.url = "A/channels/chG/members" then .ok ⟨"", []⟩
  else .err 500

end Jupyterpost

namespace Jupyterpost

/-! Basic lemmas about the building blocks. -/

lemma handle404_keyError (n : String) (v : Failure) :
    handle404 (.keyError n) v = .keyError n := rfl

lemma handle404_404 (v : Failure) : handle404 (.httpStatusError 404) v = v := rfl

lemma handle404_ne (s : Nat) (hs : s ≠ 404) (v : Failure) :
    handle404 (.httpStatusError s) v = .httpStatusError s := by
  unfold handle404
  split
  · next h =>
      injection h with h2
      exact absurd h2 hs
  · rfl

lemma mm_api_call_none_url (env : Env) (plat : Platform) (method path : String)
    (body : ReqBody) (h : env.mattermost_url = none) :
    mm_api_call env plat method path body =
      (none, .error (.keyError "MATTERMOST_URL")) := by
  simp [mm_api_call, h]

lemma mm_api_call_none_token (env : Env) (plat : Platform) (method path : String)
    (body : ReqBody) (B : String) (hB : env.mattermost_url = some B)
    (h : env.mattermost_token = none) :
    mm_api_call env plat method path body =
      (none, .error (.keyError "MATTERMOST_TOKEN")) := by
  simp [mm_api_call, hB, h]

lemma mm_api_call_ok (env : Env) (plat : Platform) (method path : String)
    (body : ReqBody) (B T : String) (r : MmResponse)
    (hB : env.mattermost_url = some B) (hT : env.mattermost_token = some T)
    (hp : plat ⟨method, B ++ path, "Bearer " ++ T, body⟩ = .ok r) :
    mm_api_call env plat method path body =
      (some ⟨method, B ++ path, "Bearer " ++ T, body⟩, .ok r) := by
  simp [mm_api_call, hB, hT, hp]

lemma mm_api_call_err (env : Env) (plat : Platform) (method path : String)
    (body : ReqBody) (B T : String) (s : Nat)
    (hB : env.mattermost_url = some B) (hT : env.mattermost_token = some T)
    (hp : plat ⟨method, B ++ path, "Bearer " ++ T, body⟩ = .err s) :
    mm_api_call env plat method path body =
      (some ⟨method, B ++ path, "Bearer " ++ T, body⟩,
       .error (.httpStatusError s)) := by
  simp [mm_api_call, hB, hT, hp]

/-- Complete case analysis of the direct-message resolution branch. -/
lemma resolve_direct_char (env : Env) (plat : Platform) (channel : String)
    (team : Option String) (me : String) :
    (resolve_direct env plat channel team me
        = ([], .error (.keyError "MATTERMOST_URL")) ∧ env.mattermost_url = none)
  ∨ (resolve_direct env plat channel team me
        = ([], .error (.keyError "MATTERMOST_TOKEN")) ∧ env.mattermost_token = none)
  ∨ ∃ B T, env.mattermost_url = some B ∧ env.mattermost_token = some T ∧
      ((∃ s, plat (dirReqUser B T channel) = .err s ∧
          resolve_direct env plat channel team me =
            ([dirReqUser B T channel],
             .error (handle404 (.httpStatusError s) (.userNotExist channel))))
       ∨ ∃ u, plat (dirReqUser B T channel) = .ok u ∧
          ((∃ s, plat (dirReqTeam B T team) = .err s ∧
              resolve_direct env plat channel team me =
                ([dirReqUser B T channel, dirReqTeam B T team],
                 .error (.httpStatusError s)))
           ∨ ∃ tJ, plat (dirReqTeam B T team) = .ok tJ ∧
              ((∃ s, plat (dirReqMember B T tJ.id u.id) = .err s ∧
                  resolve_direct env plat channel team me =
                    ([dirReqUser B T channel, dirReqTeam B T team,
                      dirReqMember B T tJ.id u.id],
                     .error (handle404 (.httpStatusError s)
                               (.notTeamMember channel (pyStr team)))))
               ∨ ∃ mJ, plat (dirReqMember B T tJ.id u.id) = .ok mJ ∧
                  ((∃ s, plat (dirReqCreate B T me u.id) = .err s ∧
                      resolve_direct env plat channel team me =
                        ([dirReqUser B T channel, dirReqTeam B T team,
                          dirReqMember B T tJ.id u.id, dirReqCreate B T me u.id],
                         .error (.httpStatusError s)))
                   ∨ ∃ ch, plat (dirReqCreate B T me u.id) = .ok ch ∧
                      resolve_direct env plat channel team me =
                        ([dirReqUser B T channel, dirReqTeam B T team,
                          dirReqMember B T tJ.id u.id, dirReqCreate B T me u.id],
                         .ok ch))))) := by
  cases hB : env.mattermost_url with
  | none =>
      exact Or.inl ⟨by simp [resolve_direct,
        mm_api_call_none_url env plat "get" _ .noBody hB, handle404], rfl⟩
  | some B =>
  cases hT : env.mattermost_token with
  | none =>
      exact Or.inr (Or.inl ⟨by simp [resolve_direct,
        mm_api_call_none_token env plat "get" _ .noBody B hB hT, handle404], rfl⟩)
  | some T =>
  refine Or.inr (Or.inr ⟨B, T, rfl, rfl, ?_⟩)
  cases hp1 : plat (dirReqUser B T channel) with
  | err s =>
      refine Or.inl ⟨s, rfl, ?_⟩
      have h1 := mm_api_call_err env plat "get"
        ("users/username/" ++ py_drop1 channel) .noBody B T s hB hT
        (by simpa [dirReqUser] using hp1)
      simp [resolve_direct, h1, dirReqUser]
  | ok u =>
  have h1 := mm_api_call_ok env plat "get"
    ("users/username/" ++ py_drop1 channel) .noBody B T u hB hT
    (by simpa [dirReqUser] using hp1)
  refine Or.inr ⟨u, rfl, ?_⟩
  cases hp2 : plat (dirReqTeam B T team) with
  | err s =>
      refine Or.inl ⟨s, rfl, ?_⟩
      have h2 := mm_api_call_err env plat "get" ("teams/name/" ++ pyStr team)
        .noBody B T s hB hT (by simpa [dirReqTeam] using hp2)
      simp [resolve_direct, h1, h2, dirReqUser, dirReqTeam]
  | ok tJ =>
  have h2 := mm_api_call_ok env plat "get" ("teams/name/" ++ pyStr team)
    .noBody B T tJ hB hT (by simpa [dirReqTeam] using hp2)
  refine Or.inr ⟨tJ, rfl, ?_⟩
  cases hp3 : plat (dirReqMember B T tJ.id u.id) with
  | err s =>
      refine Or.inl ⟨s, rfl, ?_⟩
      have h3 := mm_api_call_err env plat "get"
        ("teams/" ++ tJ.id ++ "/members/" ++ u.id) .noBody B T s hB hT
        (by simpa [dirReqMember] using hp3)
      simp [resolve_direct, h1, h2, h3, dirReqUser, dirReqTeam, dirReqMember]
  | ok mJ =>
  have h3 := mm_api_call_ok env plat "get"
    ("teams/" ++ tJ.id ++ "/members/" ++ u.id) .noBody B T mJ hB hT
    (by simpa [dirReqMember] using hp3)
  refine Or.inr ⟨mJ, rfl, ?_⟩
  cases hp4 : plat (dirReqCreate B T me u.id) with
  | err s =>
      refine Or.inl ⟨s, rfl, ?_⟩
      have h4 := mm_api_call_err env plat "post" "channels/direct"
        (.jsonPair me u.id) B T s hB hT (by simpa [dirReqCreate] using hp4)
      simp [resolve_direct, h1, h2, h3, h4,
        dirReqUser, dirReqTeam, dirReqMember, dirReqCreate]
  | ok ch =>
      refine Or.inr ⟨ch, rfl, ?_⟩
      have h4 := mm_api_call_ok env plat "post" "channels/direct"
        (.jsonPair me u.id) B T ch hB hT (by simpa [dirReqCreate] using hp4)
      simp [resolve_direct, h1, h2, h3, h4,
        dirReqUser, dirReqTeam, dirReqMember, dirReqCreate]


/-- Complete case analysis of the named-channel resolution branch. -/
lemma resolve_named_char (env : Env) (plat : Platform) (channel : String)
    (team : Option String) (me : String) :
    (resolve_named env plat channel team me
        = ([], .error (.keyError "MATTERMOST_URL")) ∧ env.mattermost_url = none)
  ∨ (resolve_named env plat channel team me
        = ([], .error (.keyError "MATTERMOST_TOKEN")) ∧ env.mattermost_token = none)
  ∨ ∃ B T, env.mattermost_url = some B ∧ env.mattermost_token = some T ∧
      ((∃ s, plat (namedReqLookup B T team channel) = .err s ∧
          resolve_named env plat channel team me =
            ([namedReqLookup B T team channel],
             .error (handle404 (.httpStatusError s)
                       (.channelNotExistOrPrivate channel))))
       ∨ ∃ ch, plat (namedReqLookup B T team channel) = .ok ch ∧
          ((∃ s, plat (namedReqJoin B T ch.id me) = .err s ∧
              resolve_named env plat channel team me =
                ([namedReqLookup B T team channel, namedReqJoin B T ch.id me],
                 .error (.httpStatusError s)))
           ∨ (∃ mJ, plat (namedReqJoin B T ch.id me) = .ok mJ ∧
              resolve_named env plat channel team me =
                ([namedReqLookup B T team channel, namedReqJoin B T ch.id me],
                 .ok ch)))) := by
  cases hB : env.mattermost_url with
  | none =>
      exact Or.inl ⟨by simp [resolve_named,
        mm_api_call_none_url env plat "get" _ .noBody hB, handle404], rfl⟩
  | some B =>
  cases hT : env.mattermost_token with
  | none =>
      exact Or.inr (Or.inl ⟨by simp [resolve_named,
        mm_api_call_none_token env plat "get" _ .noBody B hB hT, handle404], rfl⟩)
  | some T =>
  refine Or.inr (Or.inr ⟨B, T, rfl, rfl, ?_⟩)
  cases hp1 : plat (namedReqLookup B T team channel) with
  | err s =>
      refine Or.inl ⟨s, rfl, ?_⟩
      have h1 := mm_api_call_err env plat "get"
        ("teams/name/" ++ pyStr team ++ "/channels/name/" ++ channel) .noBody
        B T s hB hT (by simpa [namedReqLookup] using hp1)
      simp [resolve_named, h1, namedReqLookup]
  | ok ch =>
  have h1 := mm_api_call_ok env plat "get"
    ("teams/name/" ++ pyStr team ++ "/channels/name/" ++ channel) .noBody
    B T ch hB hT (by simpa [namedReqLookup] using hp1)
  refine Or.inr ⟨ch, rfl, ?_⟩
  cases hp2 : plat (namedReqJoin B T ch.id me) with
  | err s =>
      refine Or.inl ⟨s, rfl, ?_⟩
      have h2 := mm_api_call_err env plat "post" ("channels/" ++ ch.id ++ "/members")
        (.jsonUserId me) B T s hB hT (by simpa [namedReqJoin] using hp2)
      simp [resolve_named, h1, h2, namedReqLookup, namedReqJoin]
  | ok mJ =>
      refine Or.inr ⟨mJ, rfl, ?_⟩
      have h2 := mm_api_call_ok env plat "post" ("channels/" ++ ch.id ++ "/members")
        (.jsonUserId me) B T mJ hB hT (by simpa [namedReqJoin] using hp2)
      simp [resolve_named, h1, h2, namedReqLookup, namedReqJoin]

/-- Complete case analysis of the delivery part. -/
lemma deliver_message_char (env : Env) (plat : Platform) (cid msg : String)
    (file_ : Option (List Nat)) :
    (deliver_message env plat cid msg file_
        = ([], .error (.keyError "MATTERMOST_URL")) ∧ env.mattermost_url = none)
  ∨ (deliver_message env plat cid msg file_
        = ([], .error (.keyError "MATTERMOST_TOKEN")) ∧ env.mattermost_token = none)
  ∨ ∃ B T, env.mattermost_url = some B ∧ env.mattermost_token = some T ∧
      ((pyTruthyBytes file_ = false ∧
          ((∃ s, plat (reqPosts B T cid msg []) = .err s ∧
              deliver_message env plat cid msg file_ =
                ([reqPosts B T cid msg []], .error (.httpStatusError s)))
           ∨ (∃ j, plat (reqPosts B T cid msg []) = .ok j ∧
              deliver_message env plat cid msg file_ =
                ([reqPosts B T cid msg []], .ok j))))
       ∨ (pyTruthyBytes file_ = true ∧
          ((∃ s, plat (reqUpload B T cid (file_.getD [])) = .err s ∧
              deliver_message env plat cid msg file_ =
                ([reqUpload B T cid (file_.getD [])], .error (.httpStatusError s)))
           ∨ ∃ up, plat (reqUpload B T cid (file_.getD [])) = .ok up ∧
              ((up.file_infos = [] ∧
                  deliver_message env plat cid msg file_ =
                    ([reqUpload B T cid (file_.getD [])], .error .indexError))
               ∨ ∃ fid rest, up.file_infos = fid :: rest ∧
                  ((∃ s, plat (reqPosts B T cid msg [fid]) = .err s ∧
                      deliver_message env plat cid msg file_ =
                        ([reqUpload B T cid (file_.getD []),
                          reqPosts B T cid msg [fid]],
                         .error (.httpStatusError s)))
                   ∨ (∃ j, plat (reqPosts B T cid msg [fid]) = .ok j ∧
                      deliver_message env plat cid msg file_ =
                        ([reqUpload B T cid (file_.getD []),
                          reqPosts B T cid msg [fid]],
                         .ok j))))))) := by
  cases hf : pyTruthyBytes file_ with
  | false =>
    cases hB : env.mattermost_url with
    | none =>
        exact Or.inl ⟨by simp [deliver_message, hf,
          mm_api_call_none_url env plat "post" _ _ hB], rfl⟩
    | some B =>
    cases hT : env.mattermost_token with
    | none =>
        exact Or.inr (Or.inl ⟨by simp [deliver_message, hf,
          mm_api_call_none_token env plat "post" _ _ B hB hT], rfl⟩)
    | some T =>
    refine Or.inr (Or.inr ⟨B, T, rfl, rfl, Or.inl ⟨rfl, ?_⟩⟩)
    cases hp : plat (reqPosts B T cid msg []) with
    | err s =>
        refine Or.inl ⟨s, rfl, ?_⟩
        have h1 := mm_api_call_err env plat "post" "posts"
          (.jsonPost cid msg []) B T s hB hT (by simpa [reqPosts] using hp)
        simp [deliver_message, hf, h1, reqPosts]
    | ok j =>
        refine Or.inr ⟨j, rfl, ?_⟩
        have h1 := mm_api_call_ok env plat "post" "posts"
          (.jsonPost cid msg []) B T j hB hT (by simpa [reqPosts] using hp)
        simp [deliver_message, hf, h1, reqPosts]
  | true =>
    cases hB : env.mattermost_url with
    | none =>
        exact Or.inl ⟨by simp [deliver_message, hf,
          mm_api_call_none_url env plat "post" _ _ hB], rfl⟩
    | some B =>
    cases hT : env.mattermost_token with
    | none =>
        exact Or.inr (Or.inl ⟨by simp [deliver_message, hf,
          mm_api_call_none_token env plat "post" _ _ B hB hT], rfl⟩)
    | some T =>
    refine Or.inr (Or.inr ⟨B, T, rfl, rfl, Or.inr ⟨rfl, ?_⟩⟩)
    cases hp : plat (reqUpload B T cid (file_.getD [])) with
    | err s =>
        refine Or.inl ⟨s, rfl, ?_⟩
        have h1 := mm_api_call_err env plat "post" "files"
          (.fileData cid "upload.png" (file_.getD [])) B T s hB hT
          (by simpa [reqUpload] using hp)
        simp [deliver_message, hf, h1, reqUpload]
    | ok up =>
    have h1 := mm_api_call_ok env plat "post" "files"
      (.fileData cid "upload.png" (file_.getD [])) B T up hB hT
      (by simpa [reqUpload] using hp)
    refine Or.inr ⟨up, rfl, ?_⟩
    cases hfi : up.file_infos with
    | nil =>
        refine Or.inl ⟨rfl, ?_⟩
        simp [deliver_message, hf, h1, hfi, reqUpload]
    | cons fid rest =>
    refine Or.inr ⟨fid, rest, rfl, ?_⟩
    cases hp2 : plat (reqPosts B T cid msg [fid]) with
    | err s =>
        refine Or.inl ⟨s, rfl, ?_⟩
        have h2 := mm_api_call_err env plat "post" "posts"
          (.jsonPost cid msg [fid]) B T s hB hT (by simpa [reqPosts] using hp2)
        simp [deliver_message, hf, h1, h2, hfi, reqUpload, reqPosts]
    | ok j =>
        refine Or.inr ⟨j, rfl, ?_⟩
        have h2 := mm_api_call_ok env plat "post" "posts"
          (.jsonPost cid msg [fid]) B T j hB hT (by simpa [reqPosts] using hp2)
        simp [deliver_message, hf, h1, h2, hfi, reqUpload, reqPosts]

/-- Case analysis of destination resolution: the `users/me` call, then the
branch picked by the `@` test. -/
lemma resolve_channel_char (env : Env) (plat : Platform) (channel : String)
    (team : Option String) :
    (resolve_channel env plat channel team
        = ([], .error (.keyError "MATTERMOST_URL")) ∧ env.mattermost_url = none)
  ∨ (resolve_channel env plat channel team
        = ([], .error (.keyError "MATTERMOST_TOKEN")) ∧ env.mattermost_token = none)
  ∨ ∃ B T, env.mattermost_url = some B ∧ env.mattermost_token = some T ∧
      ((∃ s, plat (reqMe B T) = .err s ∧
          resolve_channel env plat channel team =
            ([reqMe B T], .error (.httpStatusError s)))
       ∨ ∃ meJ, plat (reqMe B T) = .ok meJ ∧
          ((∃ tr e,
              (if py_startswith channel "@" then
                 resolve_direct env plat channel team meJ.id
               else resolve_named env plat channel team meJ.id) = (tr, .error e) ∧
              resolve_channel env plat channel team =
                (reqMe B T :: tr, .error e))
           ∨ (∃ tr ch,
              (if py_startswith channel "@" then
                 resolve_direct env plat channel team meJ.id
               else resolve_named env plat channel team meJ.id) = (tr, .ok ch) ∧
              resolve_channel env plat channel team =
                (reqMe B T :: tr, .ok ch.id)))) := by
  cases hB : env.mattermost_url with
  | none =>
      exact Or.inl ⟨by simp [resolve_channel,
        mm_api_call_none_url env plat "get" _ .noBody hB], rfl⟩
  | some B =>
  cases hT : env.mattermost_token with
  | none =>
      exact Or.inr (Or.inl ⟨by simp [resolve_channel,
        mm_api_call_none_token env plat "get" _ .noBody B hB hT], rfl⟩)
  | some T =>
  refine Or.inr (Or.inr ⟨B, T, rfl, rfl, ?_⟩)
  cases hp0 : plat (reqMe B T) with
  | err s =>
      refine Or.inl ⟨s, rfl, ?_⟩
      have h0 := mm_api_call_err env plat "get" "users/me" .noBody B T s hB hT
        (by simpa [reqMe] using hp0)
      simp [resolve_channel, h0, reqMe]
  | ok meJ =>
  have h0 := mm_api_call_ok env plat "get" "users/me" .noBody B T meJ hB hT
    (by simpa [reqMe] using hp0)
  refine Or.inr ⟨meJ, rfl, ?_⟩
  cases hbr : (if py_startswith channel "@" then
                 resolve_direct env plat channel team meJ.id
               else resolve_named env plat channel team meJ.id) with
  | mk tr o =>
  cases o with
  | error e =>
      refine Or.inl ⟨tr, e, rfl, ?_⟩
      simp [resolve_channel, h0, hbr, reqMe]
  | ok ch =>
      refine Or.inr ⟨tr, ch, rfl, ?_⟩
      simp [resolve_channel, h0, hbr, reqMe]

/-- Case analysis of the full pipeline: resolution, then delivery. -/
lemma hub_post_message_char (env : Env) (plat : Platform)
    (message channel : String) (file_ : Option (List Nat))
    (team_name : Option String) :
    (∃ tr e,
       resolve_channel env plat channel (pyOr team_name env.mattermost_team)
         = (tr, .error e) ∧
       hub_post_message env plat message channel file_ team_name = (tr, .error e))
  ∨ (∃ tr cid tr2 o2,
       resolve_channel env plat channel (pyOr team_name env.mattermost_team)
         = (tr, .ok cid) ∧
       deliver_message env plat cid message file_ = (tr2, o2) ∧
       hub_post_message env plat message channel file_ team_name
         = (tr ++ tr2, o2)) := by
  cases hres : resolve_channel env plat channel (pyOr team_name env.mattermost_team) with
  | mk tr o =>
  cases o with
  | error e =>
      exact Or.inl ⟨tr, e, rfl, by simp [hub_post_message, hres]⟩
  | ok cid =>
      cases hdel : deliver_message env plat cid message file_ with
      | mk tr2 o2 =>
          exact Or.inr ⟨tr, cid, tr2, o2, rfl, hdel,
            by simp [hub_post_message, hres, hdel]⟩


/-! Derived facts about the traces of each pipeline stage. -/

lemma resolve_direct_allOk_dropLast (env : Env) (plat : Platform)
    (channel : String) (team : Option String) (me : String) :
    allOk plat (resolve_direct env plat channel team me).1.dropLast := by
  rcases resolve_direct_char env plat channel team me with
    ⟨h, _⟩ | ⟨h, _⟩ |
    ⟨B, T, _, _,
      ⟨s, hp, h⟩ |
      ⟨u, hu, ⟨s, hp, h⟩ |
        ⟨tJ, ht, ⟨s, hp, h⟩ |
          ⟨mJ, hm, ⟨s, hp, h⟩ | ⟨ch, hc, h⟩⟩⟩⟩⟩ <;>
  simp_all [allOk, List.dropLast]

lemma resolve_direct_ok_allOk (env : Env) (plat : Platform) (channel : String)
    (team : Option String) (me : String) (ch : MmResponse)
    (hok : (resolve_direct env plat channel team me).2 = .ok ch) :
    allOk plat (resolve_direct env plat channel team me).1 := by
  rcases resolve_direct_char env plat channel team me with
    ⟨h, _⟩ | ⟨h, _⟩ |
    ⟨B, T, _, _,
      ⟨s, hp, h⟩ |
      ⟨u, hu, ⟨s, hp, h⟩ |
        ⟨tJ, ht, ⟨s, hp, h⟩ |
          ⟨mJ, hm, ⟨s, hp, h⟩ | ⟨ch2, hc, h⟩⟩⟩⟩⟩ <;>
  simp_all [allOk]

lemma resolve_direct_trace_body (env : Env) (plat : Platform) (channel : String)
    (team : Option String) (me : String) (c : WireRequest)
    (hc : c ∈ (resolve_direct env plat channel team me).1) :
    c.body = .noBody ∨ ∃ a b, c.body = .jsonPair a b := by
  rcases resolve_direct_char env plat channel team me with
    ⟨h, _⟩ | ⟨h, _⟩ |
    ⟨B, T, _, _,
      ⟨s, hp, h⟩ |
      ⟨u, hu, ⟨s, hp, h⟩ |
        ⟨tJ, ht, ⟨s, hp, h⟩ |
          ⟨mJ, hm, ⟨s, hp, h⟩ | ⟨ch, hc2, h⟩⟩⟩⟩⟩ <;>
  rw [h] at hc <;>
  simp only [List.mem_cons, List.not_mem_nil, or_false] at hc <;>
  rcases hc with rfl | rfl | rfl | rfl <;>
  simp [dirReqUser, dirReqTeam, dirReqMember, dirReqCreate]

lemma resolve_direct_ok_anyDirect (env : Env) (plat : Platform)
    (channel : String) (team : Option String) (me : String) (ch : MmResponse)
    (hok : (resolve_direct env plat channel team me).2 = .ok ch) :
    (resolve_direct env plat channel team me).1.any isDirectCreate = true := by
  rcases resolve_direct_char env plat channel team me with
    ⟨h, _⟩ | ⟨h, _⟩ |
    ⟨B, T, _, _,
      ⟨s, hp, h⟩ |
      ⟨u, hu, ⟨s, hp, h⟩ |
        ⟨tJ, ht, ⟨s, hp, h⟩ |
          ⟨mJ, hm, ⟨s, hp, h⟩ | ⟨ch2, hc, h⟩⟩⟩⟩⟩ <;>
  simp_all [isDirectCreate, dirReqCreate]

lemma resolve_direct_trace_wire (env : Env) (plat : Platform) (channel : String)
    (team : Option String) (me : String) (B T : String)
    (hB : env.mattermost_url = some B) (hT : env.mattermost_token = some T)
    (c : WireRequest) (hc : c ∈ (resolve_direct env plat channel team me).1) :
    (∃ p, c.url = B ++ p) ∧ c.auth = "Bearer " ++ T := by
  rcases resolve_direct_char env plat channel team me with
    ⟨h, h2⟩ | ⟨h, h2⟩ |
    ⟨B2, T2, hB2, hT2,
      ⟨s, hp, h⟩ |
      ⟨u, hu, ⟨s, hp, h⟩ |
        ⟨tJ, ht, ⟨s, hp, h⟩ |
          ⟨mJ, hm, ⟨s, hp, h⟩ | ⟨ch, hc2, h⟩⟩⟩⟩⟩
  · rw [h2] at hB; cases hB
  · rw [h2] at hT; cases hT
  all_goals
    rw [hB2] at hB; rw [hT2] at hT
    cases hB; cases hT
    rw [h] at hc
    simp only [List.mem_cons, List.not_mem_nil, or_false] at hc
  all_goals
    rcases hc with rfl | rfl | rfl | rfl <;>
    exact ⟨⟨_, rfl⟩, rfl⟩

lemma resolve_named_allOk_dropLast (env : Env) (plat : Platform)
    (channel : String) (team : Option String) (me : String) :
    allOk plat (resolve_named env plat channel team me).1.dropLast := by
  rcases resolve_named_char env plat channel team me with
    ⟨h, _⟩ | ⟨h, _⟩ |
    ⟨B, T, _, _,
      ⟨s, hp, h⟩ |
      ⟨ch, hl, ⟨s, hp, h⟩ | ⟨mJ, hj, h⟩⟩⟩ <;>
  simp_all [allOk, List.dropLast]

lemma resolve_named_ok_allOk (env : Env) (plat : Platform) (channel : String)
    (team : Option String) (me : String) (ch : MmResponse)
    (hok : (resolve_named env plat channel team me).2 = .ok ch) :
    allOk plat (resolve_named env plat channel team me).1 := by
  rcases resolve_named_char env plat channel team me with
    ⟨h, _⟩ | ⟨h, _⟩ |
    ⟨B, T, _, _,
      ⟨s, hp, h⟩ |
      ⟨ch2, hl, ⟨s, hp, h⟩ | ⟨mJ, hj, h⟩⟩⟩ <;>
  simp_all [allOk]

lemma resolve_named_trace_body (env : Env) (plat : Platform) (channel : String)
    (team : Option String) (me : String) (c : WireRequest)
    (hc : c ∈ (resolve_named env plat channel team me).1) :
    c.body = .noBody ∨ ∃ a, c.body = .jsonUserId a := by
  rcases resolve_named_char env plat channel team me with
    ⟨h, _⟩ | ⟨h, _⟩ |
    ⟨B, T, _, _,
      ⟨s, hp, h⟩ |
      ⟨ch, hl, ⟨s, hp, h⟩ | ⟨mJ, hj, h⟩⟩⟩ <;>
  rw [h] at hc <;>
  simp only [List.mem_cons, List.not_mem_nil, or_false] at hc <;>
  rcases hc with rfl | rfl <;>
  simp [namedReqLookup, namedReqJoin]

lemma resolve_named_ok_anyJoin (env : Env) (plat : Platform) (channel : String)
    (team : Option String) (me : String) (ch : MmResponse)
    (hok : (resolve_named env plat channel team me).2 = .ok ch) :
    (resolve_named env plat channel team me).1.any isChannelJoin = true := by
  rcases resolve_named_char env plat channel team me with
    ⟨h, _⟩ | ⟨h, _⟩ |
    ⟨B, T, _, _,
      ⟨s, hp, h⟩ |
      ⟨ch2, hl, ⟨s, hp, h⟩ | ⟨mJ, hj, h⟩⟩⟩ <;>
  simp_all [isChannelJoin, namedReqJoin]

lemma resolve_named_trace_wire (env : Env) (plat : Platform) (channel : String)
    (team : Option String) (me : String) (B T : String)
    (hB : env.mattermost_url = some B) (hT : env.mattermost_token = some T)
    (c : WireRequest) (hc : c ∈ (resolve_named env plat channel team me).1) :
    (∃ p, c.url = B ++ p) ∧ c.auth = "Bearer " ++ T := by
  rcases resolve_named_char env plat channel team me with
    ⟨h, h2⟩ | ⟨h, h2⟩ |
    ⟨B2, T2, hB2, hT2,
      ⟨s, hp, h⟩ |
      ⟨ch, hl, ⟨s, hp, h⟩ | ⟨mJ, hj, h⟩⟩⟩
  · rw [h2] at hB; cases hB
  · rw [h2] at hT; cases hT
  all_goals
    rw [hB2] at hB; rw [hT2] at hT
    cases hB; cases hT
    rw [h] at hc
    simp only [List.mem_cons, List.not_mem_nil, or_false] at hc
  all_goals
    rcases hc with rfl | rfl <;>
    exact ⟨⟨_, rfl⟩, rfl⟩


lemma deliver_message_allOk_dropLast (env : Env) (plat : Platform)
    (cid msg : String) (file_ : Option (List Nat)) :
    allOk plat (deliver_message env plat cid msg file_).1.dropLast := by
  rcases deliver_message_char env plat cid msg file_ with
    ⟨h, _⟩ | ⟨h, _⟩ |
    ⟨B, T, _, _,
      ⟨hf, ⟨s, hp, h⟩ | ⟨j, hp, h⟩⟩ |
      ⟨hf, ⟨s, hp, h⟩ |
        ⟨up, hu, ⟨hfi, h⟩ | ⟨fid, rest, hfi, ⟨s, hp, h⟩ | ⟨j, hp, h⟩⟩⟩⟩⟩ <;>
  simp_all [allOk, List.dropLast]

lemma deliver_message_ok_allOk (env : Env) (plat : Platform) (cid msg : String)
    (file_ : Option (List Nat)) (j : MmResponse)
    (hok : (deliver_message env plat cid msg file_).2 = .ok j) :
    allOk plat (deliver_message env plat cid msg file_).1 := by
  rcases deliver_message_char env plat cid msg file_ with
    ⟨h, _⟩ | ⟨h, _⟩ |
    ⟨B, T, _, _,
      ⟨hf, ⟨s, hp, h⟩ | ⟨j2, hp, h⟩⟩ |
      ⟨hf, ⟨s, hp, h⟩ |
        ⟨up, hu, ⟨hfi, h⟩ | ⟨fid, rest, hfi, ⟨s, hp, h⟩ | ⟨j2, hp, h⟩⟩⟩⟩⟩ <;>
  simp_all [allOk]

lemma deliver_message_trace_wire (env : Env) (plat : Platform) (cid msg : String)
    (file_ : Option (List Nat)) (B T : String)
    (hB : env.mattermost_url = some B) (hT : env.mattermost_token = some T)
    (c : WireRequest) (hc : c ∈ (deliver_message env plat cid msg file_).1) :
    (∃ p, c.url = B ++ p) ∧ c.auth = "Bearer " ++ T := by
  rcases deliver_message_char env plat cid msg file_ with
    ⟨h, h2⟩ | ⟨h, h2⟩ |
    ⟨B2, T2, hB2, hT2,
      ⟨hf, ⟨s, hp, h⟩ | ⟨j, hp, h⟩⟩ |
      ⟨hf, ⟨s, hp, h⟩ |
        ⟨up, hu, ⟨hfi, h⟩ | ⟨fid, rest, hfi, ⟨s, hp, h⟩ | ⟨j, hp, h⟩⟩⟩⟩⟩
  · rw [h2] at hB; cases hB
  · rw [h2] at hT; cases hT
  all_goals
    rw [hB2] at hB; rw [hT2] at hT
    cases hB; cases hT
    rw [h] at hc
    simp only [List.mem_cons, List.not_mem_nil, or_false] at hc
  all_goals
    rcases hc with rfl | rfl <;>
    exact ⟨⟨_, rfl⟩, rfl⟩

/-! List composition helpers. -/

lemma allOk_append (plat : Platform) (l1 l2 : List WireRequest)
    (h1 : allOk plat l1) (h2 : allOk plat l2) : allOk plat (l1 ++ l2) := by
  intro c hc
  rcases List.mem_append.mp hc with hc | hc
  · exact h1 c hc
  · exact h2 c hc

lemma allOk_sub (plat : Platform) (l1 l2 : List WireRequest)
    (hsub : l1 ⊆ l2) (h : allOk plat l2) : allOk plat l1 :=
  fun c hc => h c (hsub hc)

lemma allOk_dropLast_append (plat : Platform) (l1 l2 : List WireRequest)
    (h1 : allOk plat l1) (h2 : allOk plat l2.dropLast) :
    allOk plat (l1 ++ l2).dropLast := by
  cases l2 with
  | nil =>
      simp only [List.append_nil]
      exact allOk_sub plat _ l1 (List.dropLast_subset l1) h1
  | cons b l =>
      rw [List.dropLast_append_cons]
      exact allOk_append plat _ _ h1 h2

lemma allOk_cons (plat : Platform) (a : WireRequest) (l : List WireRequest)
    (ha : ∃ r, plat a = .ok r) (h : allOk plat l) : allOk plat (a :: l) := by
  intro c hc
  rcases List.mem_cons.mp hc with rfl | hc
  · exact ha
  · exact h c hc

lemma allOk_dropLast_cons (plat : Platform) (a : WireRequest)
    (l : List WireRequest) (ha : ∃ r, plat a = .ok r)
    (h : allOk plat l.dropLast) : allOk plat (a :: l).dropLast := by
  cases l with
  | nil => intro c hc; simp [List.dropLast] at hc
  | cons b l =>
      have : (a :: b :: l).dropLast = a :: (b :: l).dropLast := rfl
      rw [this]
      exact allOk_cons plat a _ ha h

lemma postsOnlyAfter_of_noPost (ensure : WireRequest → Bool)
    (l : List WireRequest) (h : ∀ c ∈ l, isPostCreation c = false) :
    postsOnlyAfter ensure l = true := by
  induction l with
  | nil => rfl
  | cons a l ih =>
      have ha := h a (List.mem_cons_self a l)
      simp only [postsOnlyAfter, ha, Bool.false_eq_true, if_false]
      cases he : ensure a with
      | true => simp
      | false =>
          simp only [Bool.false_eq_true, if_false]
          exact ih fun c hc => h c (List.mem_cons_of_mem a hc)

lemma postsOnlyAfter_append_of_any (ensure : WireRequest → Bool)
    (l1 l2 : List WireRequest)
    (hno : ∀ c ∈ l1, isPostCreation c = false)
    (hany : l1.any ensure = true) :
    postsOnlyAfter ensure (l1 ++ l2) = true := by
  induction l1 with
  | nil => simp at hany
  | cons a l ih =>
      have ha := hno a (List.mem_cons_self a l)
      simp only [List.cons_append, postsOnlyAfter, ha, Bool.false_eq_true, if_false]
      cases he : ensure a with
      | true => simp
      | false =>
          simp only [Bool.false_eq_true, if_false]
          refine ih (fun c hc => hno c (List.mem_cons_of_mem a hc)) ?_
          simp only [List.any_cons, he, Bool.false_or] at hany
          exact hany

lemma postedFileIds_append_of_noPost (l1 l2 : List WireRequest)
    (hno : ∀ c ∈ l1, isPostCreation c = false) :
    postedFileIds (l1 ++ l2) = postedFileIds l2 := by
  induction l1 with
  | nil => rfl
  | cons a l ih =>
      have ha := hno a (List.mem_cons_self a l)
      simp only [List.cons_append, postedFileIds]
      unfold isPostCreation at ha
      cases hb : a.body <;> rw [hb] at ha <;> simp_all


/-! Composition facts for `resolve_channel`. -/

lemma resolve_channel_allOk_dropLast (env : Env) (plat : Platform)
    (channel : String) (team : Option String) :
    allOk plat (resolve_channel env plat channel team).1.dropLast := by
  rcases resolve_channel_char env plat channel team with
    ⟨h, _⟩ | ⟨h, _⟩ |
    ⟨B, T, hB, hT,
      ⟨s, hp, h⟩ |
      ⟨meJ, hme, ⟨tr, e, hbr, h⟩ | ⟨tr, ch, hbr, h⟩⟩⟩ <;>
  rw [h]
  · intro c hc; simp [List.dropLast] at hc
  · intro c hc; simp [List.dropLast] at hc
  · intro c hc; simp [List.dropLast] at hc
  · refine allOk_dropLast_cons plat _ _ ⟨meJ, hme⟩ ?_
    cases hsw : py_startswith channel "@" <;> simp only [hsw] at hbr <;>
      simp only [if_true, if_false, Bool.false_eq_true] at hbr
    · have htr : (resolve_named env plat channel team meJ.id).1 = tr := by
        rw [hbr]
      rw [← htr]
      exact resolve_named_allOk_dropLast env plat channel team meJ.id
    · have htr : (resolve_direct env plat channel team meJ.id).1 = tr := by
        rw [hbr]
      rw [← htr]
      exact resolve_direct_allOk_dropLast env plat channel team meJ.id
  · refine allOk_dropLast_cons plat _ _ ⟨meJ, hme⟩ ?_
    cases hsw : py_startswith channel "@" <;> simp only [hsw] at hbr <;>
      simp only [if_true, if_false, Bool.false_eq_true] at hbr
    · have htr : (resolve_named env plat channel team meJ.id).1 = tr := by
        rw [hbr]
      have hok : (resolve_named env plat channel team meJ.id).2 = .ok ch := by
        rw [hbr]
      rw [← htr]
      exact allOk_sub plat _ _ (List.dropLast_subset _)
        (resolve_named_ok_allOk env plat channel team meJ.id ch hok)
    · have htr : (resolve_direct env plat channel team meJ.id).1 = tr := by
        rw [hbr]
      have hok : (resolve_direct env plat channel team meJ.id).2 = .ok ch := by
        rw [hbr]
      rw [← htr]
      exact allOk_sub plat _ _ (List.dropLast_subset _)
        (resolve_direct_ok_allOk env plat channel team meJ.id ch hok)

lemma resolve_channel_ok_allOk (env : Env) (plat : Platform) (channel : String)
    (team : Option String) (cid : String)
    (hok : (resolve_channel env plat channel team).2 = .ok cid) :
    allOk plat (resolve_channel env plat channel team).1 := by
  rcases resolve_channel_char env plat channel team with
    ⟨h, _⟩ | ⟨h, _⟩ |
    ⟨B, T, hB, hT,
      ⟨s, hp, h⟩ |
      ⟨meJ, hme, ⟨tr, e, hbr, h⟩ | ⟨tr, ch, hbr, h⟩⟩⟩
  · rw [h] at hok; exact absurd hok (by simp)
  · rw [h] at hok; exact absurd hok (by simp)
  · rw [h] at hok; exact absurd hok (by simp)
  · rw [h] at hok; exact absurd hok (by simp)
  rw [h]
  refine allOk_cons plat _ _ ⟨meJ, hme⟩ ?_
  cases hsw : py_startswith channel "@" <;> simp only [hsw] at hbr <;>
    simp only [if_true, if_false, Bool.false_eq_true] at hbr
  · have htr : (resolve_named env plat channel team meJ.id).1 = tr := by
      rw [hbr]
    have hok2 : (resolve_named env plat channel team meJ.id).2 = .ok ch := by
      rw [hbr]
    rw [← htr]
    exact resolve_named_ok_allOk env plat channel team meJ.id ch hok2
  · have htr : (resolve_direct env plat channel team meJ.id).1 = tr := by
      rw [hbr]
    have hok2 : (resolve_direct env plat channel team meJ.id).2 = .ok ch := by
      rw [hbr]
    rw [← htr]
    exact resolve_direct_ok_allOk env plat channel team meJ.id ch hok2

lemma resolve_channel_trace_noPost (env : Env) (plat : Platform)
    (channel : String) (team : Option String) (c : WireRequest)
    (hc : c ∈ (resolve_channel env plat channel team).1) :
    isPostCreation c = false ∧ isUpload c = false := by
  rcases resolve_channel_char env plat channel team with
    ⟨h, _⟩ | ⟨h, _⟩ |
    ⟨B, T, hB, hT,
      ⟨s, hp, h⟩ |
      ⟨meJ, hme, ⟨tr, e, hbr, h⟩ | ⟨tr, ch, hbr, h⟩⟩⟩ <;>
  rw [h] at hc <;> try simp at hc
  · rw [hc]; exact ⟨rfl, rfl⟩
  all_goals
    rcases hc with rfl | hc
    case inl => exact ⟨rfl, rfl⟩
    all_goals
      cases hsw : py_startswith channel "@" <;> simp only [hsw] at hbr <;>
        simp only [if_true, if_false, Bool.false_eq_true] at hbr
      · have htr : (resolve_named env plat channel team meJ.id).1 = tr := by
          rw [hbr]
        rw [← htr] at hc
        rcases resolve_named_trace_body env plat channel team meJ.id c hc with
          hb | ⟨a, hb⟩ <;>
        simp [isPostCreation, isUpload, hb]
      · have htr : (resolve_direct env plat channel team meJ.id).1 = tr := by
          rw [hbr]
        rw [← htr] at hc
        rcases resolve_direct_trace_body env plat channel team meJ.id c hc with
          hb | ⟨a, b, hb⟩ <;>
        simp [isPostCreation, isUpload, hb]

lemma resolve_channel_ok_anyEnsure (env : Env) (plat : Platform)
    (channel : String) (team : Option String) (cid : String)
    (hok : (resolve_channel env plat channel team).2 = .ok cid) :
    (resolve_channel env plat channel team).1.any (ensureMember channel) = true := by
  rcases resolve_channel_char env plat channel team with
    ⟨h, _⟩ | ⟨h, _⟩ |
    ⟨B, T, hB, hT,
      ⟨s, hp, h⟩ |
      ⟨meJ, hme, ⟨tr, e, hbr, h⟩ | ⟨tr, ch, hbr, h⟩⟩⟩
  · rw [h] at hok; exact absurd hok (by simp)
  · rw [h] at hok; exact absurd hok (by simp)
  · rw [h] at hok; exact absurd hok (by simp)
  · rw [h] at hok; exact absurd hok (by simp)
  rw [h]
  simp only [List.any_cons, Bool.or_eq_true]
  right
  cases hsw : py_startswith channel "@" <;> simp only [hsw] at hbr <;>
    simp only [if_true, if_false, Bool.false_eq_true] at hbr
  · have htr : (resolve_named env plat channel team meJ.id).1 = tr := by
      rw [hbr]
    have hok2 : (resolve_named env plat channel team meJ.id).2 = .ok ch := by
      rw [hbr]
    have hany := resolve_named_ok_anyJoin env plat channel team meJ.id ch hok2
    rw [htr] at hany
    have : ensureMember channel = isChannelJoin := by
      funext c; simp [ensureMember, hsw]
    rw [this]
    exact hany
  · have htr : (resolve_direct env plat channel team meJ.id).1 = tr := by
      rw [hbr]
    have hok2 : (resolve_direct env plat channel team meJ.id).2 = .ok ch := by
      rw [hbr]
    have hany := resolve_direct_ok_anyDirect env plat channel team meJ.id ch hok2
    rw [htr] at hany
    have : ensureMember channel = isDirectCreate := by
      funext c; simp [ensureMember, hsw]
    rw [this]
    exact hany

lemma resolve_channel_trace_wire (env : Env) (plat : Platform)
    (channel : String) (team : Option String) (B T : String)
    (hB : env.mattermost_url = some B) (hT : env.mattermost_token = some T)
    (c : WireRequest) (hc : c ∈ (resolve_channel env plat channel team).1) :
    (∃ p, c.url = B ++ p) ∧ c.auth = "Bearer " ++ T := by
  rcases resolve_channel_char env plat channel team with
    ⟨h, h2⟩ | ⟨h, h2⟩ |
    ⟨B2, T2, hB2, hT2,
      ⟨s, hp, h⟩ |
      ⟨meJ, hme, ⟨tr, e, hbr, h⟩ | ⟨tr, ch, hbr, h⟩⟩⟩
  · rw [h2] at hB; cases hB
  · rw [h2] at hT; cases hT
  all_goals
    rw [hB2] at hB; rw [hT2] at hT
    cases hB; cases hT
    rw [h] at hc
  · simp only [List.mem_cons, List.not_mem_nil, or_false] at hc
    rw [hc]
    exact ⟨⟨_, rfl⟩, rfl⟩
  all_goals
    rcases List.mem_cons.mp hc with rfl | hc
    case inl => exact ⟨⟨_, rfl⟩, rfl⟩
    all_goals
      cases hsw : py_startswith channel "@" <;> simp only [hsw] at hbr <;>
        simp only [if_true, if_false, Bool.false_eq_true] at hbr
      · have htr : (resolve_named env plat channel team meJ.id).1 = tr := by
          rw [hbr]
        rw [← htr] at hc
        exact resolve_named_trace_wire env plat channel team meJ.id B T hB2 hT2 c hc
      · have htr : (resolve_direct env plat channel team meJ.id).1 = tr := by
          rw [hbr]
        rw [← htr] at hc
        exact resolve_direct_trace_wire env plat channel team meJ.id B T hB2 hT2 c hc


/-! Forward computation lemmas used by the per-claim theorems. -/

lemma resolve_channel_direct_eq (env : Env) (plat : Platform)
    (channel : String) (team : Option String) (B T : String) (meJ : MmResponse)
    (hB : env.mattermost_url = some B) (hT : env.mattermost_token = some T)
    (hch : py_startswith channel "@" = true)
    (hme : plat (reqMe B T) = .ok meJ)
    (tr : List WireRequest) (o : Except Failure MmResponse)
    (hbr : resolve_direct env plat channel team meJ.id = (tr, o)) :
    resolve_channel env plat channel team =
      (reqMe B T :: tr,
       match o with
       | .error e => .error e
       | .ok ch => .ok ch.id) := by
  have h0 := mm_api_call_ok env plat "get" "users/me" .noBody B T meJ hB hT
    (by simpa [reqMe] using hme)
  cases o with
  | error e => simp [resolve_channel, h0, hch, hbr, reqMe]
  | ok ch => simp [resolve_channel, h0, hch, hbr, reqMe]

lemma resolve_channel_named_eq (env : Env) (plat : Platform)
    (channel : String) (team : Option String) (B T : String) (meJ : MmResponse)
    (hB : env.mattermost_url = some B) (hT : env.mattermost_token = some T)
    (hch : py_startswith channel "@" = false)
    (hme : plat (reqMe B T) = .ok meJ)
    (tr : List WireRequest) (o : Except Failure MmResponse)
    (hbr : resolve_named env plat channel team meJ.id = (tr, o)) :
    resolve_channel env plat channel team =
      (reqMe B T :: tr,
       match o with
       | .error e => .error e
       | .ok ch => .ok ch.id) := by
  have h0 := mm_api_call_ok env plat "get" "users/me" .noBody B T meJ hB hT
    (by simpa [reqMe] using hme)
  cases o with
  | error e => simp [resolve_channel, h0, hch, hbr, reqMe]
  | ok ch => simp [resolve_channel, h0, hch, hbr, reqMe]

/-! ## C1 -/

/-- C1 as stated is false on the code: on a platform where the user `alice`
exists but the team lookup answers 404, the pipeline fails with the uncaught
HTTP 404 status error — the team lookup at jupyterpost.py line 80 is outside
any `try/except` — which is not a `DestinationNotFound` failure. -/
theorem C1_counterexample :
    platNoTeam ⟨"get", "A/teams/name/eng", "Bearer tok", .noBody⟩ = .err 404
    ∧ (hub_post_message envA platNoTeam "m" "@alice" none none).2 =
        .error (.httpStatusError 404)
    ∧ isDestinationNotFound (.httpStatusError 404) = false := by
  decide

/-- C1 amended: for a direct-message destination, a 404 on the user lookup
raises the `DestinationNotFound` `ValueError` and no later step runs; a 404
on the subsequent team lookup instead propagates as the raw HTTP status
error (an upstream error, not `DestinationNotFound`), and no later step
runs. -/
theorem C1_amended_direct_404s (env : Env) (p q : Platform)
    (message channel : String) (file_ : Option (List Nat))
    (team_name : Option String) (B T : String) (meJ meJ2 u : MmResponse)
    (hB : env.mattermost_url = some B) (hT : env.mattermost_token = some T)
    (hch : py_startswith channel "@" = true)
    (hpme : p (reqMe B T) = .ok meJ)
    (hpu : p (dirReqUser B T channel) = .err 404)
    (hqme : q (reqMe B T) = .ok meJ2)
    (hqu : q (dirReqUser B T channel) = .ok u)
    (hqt : q (dirReqTeam B T (pyOr team_name env.mattermost_team)) = .err 404) :
    (hub_post_message env p message channel file_ team_name =
       ([reqMe B T, dirReqUser B T channel], .error (.userNotExist channel))
     ∧ isDestinationNotFound (.userNotExist channel) = true)
    ∧ (hub_post_message env q message channel file_ team_name =
       ([reqMe B T, dirReqUser B T channel,
         dirReqTeam B T (pyOr team_name env.mattermost_team)],
        .error (.httpStatusError 404))
     ∧ isDestinationNotFound (.httpStatusError 404) = false) := by
  constructor
  · constructor
    · have h1 := mm_api_call_err env p "get"
        ("users/username/" ++ py_drop1 channel) .noBody B T 404 hB hT
        (by simpa [dirReqUser] using hpu)
      have hrd : resolve_direct env p channel (pyOr team_name env.mattermost_team)
          meJ.id = ([dirReqUser B T channel], .error (.userNotExist channel)) := by
        simp [resolve_direct, h1, dirReqUser, handle404_404]
      have hrc := resolve_channel_direct_eq env p channel
        (pyOr team_name env.mattermost_team) B T meJ hB hT hch hpme _ _ hrd
      simp [hub_post_message, hrc]
    · rfl
  · constructor
    · have h1 := mm_api_call_ok env q "get"
        ("users/username/" ++ py_drop1 channel) .noBody B T u hB hT
        (by simpa [dirReqUser] using hqu)
      have h2 := mm_api_call_err env q "get"
        ("teams/name/" ++ pyStr (pyOr team_name env.mattermost_team)) .noBody
        B T 404 hB hT (by simpa [dirReqTeam] using hqt)
      have hrd : resolve_direct env q channel (pyOr team_name env.mattermost_team)
          meJ2.id =
          ([dirReqUser B T channel,
            dirReqTeam B T (pyOr team_name env.mattermost_team)],
           .error (.httpStatusError 404)) := by
        simp [resolve_direct, h1, h2, dirReqUser, dirReqTeam]
      have hrc := resolve_channel_direct_eq env q channel
        (pyOr team_name env.mattermost_team) B T meJ2 hB hT hch hqme _ _ hrd
      simp [hub_post_message, hrc]
    · rfl

theorem C1_amended_witness :
    (hub_post_message envA platN "m" "@alice" none none =
       ([reqMe "A/" "tok", dirReqUser "A/" "tok" "@alice"],
        .error (.userNotExist "@alice"))
     ∧ isDestinationNotFound (.userNotExist "@alice") = true)
    ∧ (hub_post_message envA platNoTeam "m" "@alice" none none =
       ([reqMe "A/" "tok", dirReqUser "A/" "tok" "@alice",
         dirReqTeam "A/" "tok" (some "eng")],
        .error (.httpStatusError 404))
     ∧ isDestinationNotFound (.httpStatusError 404) = false) :=
  C1_amended_direct_404s envA platN platNoTeam "m" "@alice" none none "A/" "tok"
    ⟨"me", []⟩ ⟨"me", []⟩ ⟨"uA", []⟩ rfl rfl (by decide) (by decide) (by decide)
    (by decide) (by decide) (by decide)

/-! ## C2 -/

/-- C2: for a direct-message destination whose user exists (and whose team
lookup succeeds) but whose team-membership check returns 404, the pipeline
raises the `NotAuthorizedMember` `ValueError` and no post-creation request
is ever issued — resolution fails, nothing is posted. -/
theorem C2_member_404_refuses (env : Env) (plat : Platform)
    (message channel : String) (file_ : Option (List Nat))
    (team_name : Option String) (B T : String) (meJ u tJ : MmResponse)
    (hB : env.mattermost_url = some B) (hT : env.mattermost_token = some T)
    (hch : py_startswith channel "@" = true)
    (hme : plat (reqMe B T) = .ok meJ)
    (hu : plat (dirReqUser B T channel) = .ok u)
    (ht : plat (dirReqTeam B T (pyOr team_name env.mattermost_team)) = .ok tJ)
    (hm : plat (dirReqMember B T tJ.id u.id) = .err 404) :
    hub_post_message env plat message channel file_ team_name =
      ([reqMe B T, dirReqUser B T channel,
        dirReqTeam B T (pyOr team_name env.mattermost_team),
        dirReqMember B T tJ.id u.id],
       .error (.notTeamMember channel (pyStr (pyOr team_name env.mattermost_team))))
    ∧ isNotAuthorizedMember
        (.notTeamMember channel (pyStr (pyOr team_name env.mattermost_team))) = true
    ∧ ∀ c ∈ (hub_post_message env plat message channel file_ team_name).1,
        isPostCreation c = false := by
  have h1 := mm_api_call_ok env plat "get"
    ("users/username/" ++ py_drop1 channel) .noBody B T u hB hT
    (by simpa [dirReqUser] using hu)
  have h2 := mm_api_call_ok env plat "get"
    ("teams/name/" ++ pyStr (pyOr team_name env.mattermost_team)) .noBody
    B T tJ hB hT (by simpa [dirReqTeam] using ht)
  have h3 := mm_api_call_err env plat "get"
    ("teams/" ++ tJ.id ++ "/members/" ++ u.id) .noBody B T 404 hB hT
    (by simpa [dirReqMember] using hm)
  have hrd : resolve_direct env plat channel (pyOr team_name env.mattermost_team)
      meJ.id =
      ([dirReqUser B T channel,
        dirReqTeam B T (pyOr team_name env.mattermost_team),
        dirReqMember B T tJ.id u.id],
       .error (.notTeamMember channel (pyStr (pyOr team_name env.mattermost_team)))) := by
    simp [resolve_direct, h1, h2, h3, dirReqUser, dirReqTeam, dirReqMember,
      handle404_404]
  have hrc := resolve_channel_direct_eq env plat channel
    (pyOr team_name env.mattermost_team) B T meJ hB hT hch hme _ _ hrd
  have hhub : hub_post_message env plat message channel file_ team_name =
      ([reqMe B T, dirReqUser B T channel,
        dirReqTeam B T (pyOr team_name env.mattermost_team),
        dirReqMember B T tJ.id u.id],
       .error (.notTeamMember channel
                 (pyStr (pyOr team_name env.mattermost_team)))) := by
    simp [hub_post_message, hrc]
  refine ⟨hhub, rfl, ?_⟩
  rw [hhub]
  intro c hc
  simp only [List.mem_cons, List.not_mem_nil, or_false] at hc
  rcases hc with rfl | rfl | rfl | rfl <;> rfl

theorem C2_witness :
    hub_post_message envA platNotMember "ping" "@bob" none none =
      ([reqMe "A/" "tok", dirReqUser "A/" "tok" "@bob",
        dirReqTeam "A/" "tok" (some "eng"), dirReqMember "A/" "tok" "tE" "uB"],
       .error (.notTeamMember "@bob" "eng")) :=
  (C2_member_404_refuses envA platNotMember "ping" "@bob" none none "A/" "tok"
    ⟨"me", []⟩ ⟨"uB", []⟩ ⟨"tE", []⟩ rfl rfl (by decide) (by decide) (by decide)
    (by decide) (by decide)).1

/-! ## C3 -/

/-- C3: for a named-channel destination, a 404 on the channel lookup — on
any platform, whether the channel is absent or private — yields the single
`DestinationNotFound` failure `channelNotExistOrPrivate`; two platforms that
both answer 404 there produce identical failures, so the caller cannot
distinguish the two situations. -/
theorem C3_named_404_indistinguishable (env : Env) (p q : Platform)
    (message channel : String) (file_ : Option (List Nat))
    (team_name : Option String) (B T : String) (meJp meJq : MmResponse)
    (hB : env.mattermost_url = some B) (hT : env.mattermost_token = some T)
    (hch : py_startswith channel "@" = false)
    (hpme : p (reqMe B T) = .ok meJp)
    (hqme : q (reqMe B T) = .ok meJq)
    (hpl : p (namedReqLookup B T (pyOr team_name env.mattermost_team) channel)
             = .err 404)
    (hql : q (namedReqLookup B T (pyOr team_name env.mattermost_team) channel)
             = .err 404) :
    (hub_post_message env p message channel file_ team_name).2 =
      .error (.channelNotExistOrPrivate channel)
    ∧ (hub_post_message env q message channel file_ team_name).2 =
      (hub_post_message env p message channel file_ team_name).2
    ∧ isDestinationNotFound (.channelNotExistOrPrivate channel) = true := by
  have hrunp : (hub_post_message env p message channel file_ team_name).2 =
      .error (.channelNotExistOrPrivate channel) := by
    have h1 := mm_api_call_err env p "get"
      ("teams/name/" ++ pyStr (pyOr team_name env.mattermost_team)
        ++ "/channels/name/" ++ channel) .noBody B T 404 hB hT
      (by simpa [namedReqLookup] using hpl)
    have hrn : resolve_named env p channel (pyOr team_name env.mattermost_team)
        meJp.id =
        ([namedReqLookup B T (pyOr team_name env.mattermost_team) channel],
         .error (.channelNotExistOrPrivate channel)) := by
      simp [resolve_named, h1, namedReqLookup, handle404_404]
    have hrc := resolve_channel_named_eq env p channel
      (pyOr team_name env.mattermost_team) B T meJp hB hT hch hpme _ _ hrn
    simp [hub_post_message, hrc]
  have hrunq : (hub_post_message env q message channel file_ team_name).2 =
      .error (.channelNotExistOrPrivate channel) := by
    have h1 := mm_api_call_err env q "get"
      ("teams/name/" ++ pyStr (pyOr team_name env.mattermost_team)
        ++ "/channels/name/" ++ channel) .noBody B T 404 hB hT
      (by simpa [namedReqLookup] using hql)
    have hrn : resolve_named env q channel (pyOr team_name env.mattermost_team)
        meJq.id =
        ([namedReqLookup B T (pyOr team_name env.mattermost_team) channel],
         .error (.channelNotExistOrPrivate channel)) := by
      simp [resolve_named, h1, namedReqLookup, handle404_404]
    have hrc := resolve_channel_named_eq env q channel
      (pyOr team_name env.mattermost_team) B T meJq hB hT hch hqme _ _ hrn
    simp [hub_post_message, hrc]
  exact ⟨hrunp, by rw [hrunp, hrunq], rfl⟩

theorem C3_witness :
    (hub_post_message envA platN "m" "secret-channel" none none).2 =
      .error (.channelNotExistOrPrivate "secret-channel")
    ∧ (hub_post_message envA platNoTeam "m" "secret-channel" none none).2 =
      (hub_post_message envA platN "m" "secret-channel" none none).2
    ∧ isDestinationNotFound (.channelNotExistOrPrivate "secret-channel") = true :=
  C3_named_404_indistinguishable envA platN platNoTeam "m" "secret-channel"
    none none "A/" "tok" ⟨"me", []⟩ ⟨"me", []⟩ rfl rfl (by decide) (by decide)
    (by decide) (by decide) (by decide)


/-! Hub-level trace facts. -/

lemma hub_allOk_dropLast (env : Env) (plat : Platform) (message channel : String)
    (file_ : Option (List Nat)) (team_name : Option String) :
    allOk plat (hub_post_message env plat message channel file_ team_name).1.dropLast := by
  rcases hub_post_message_char env plat message channel file_ team_name with
    ⟨tr, e, hres, h⟩ | ⟨tr, cid, tr2, o2, hres, hdel, h⟩
  · rw [h]
    have h1 := resolve_channel_allOk_dropLast env plat channel
      (pyOr team_name env.mattermost_team)
    rwa [hres] at h1
  · rw [h]
    have h1 : allOk plat tr := by
      have h2 := resolve_channel_ok_allOk env plat channel
        (pyOr team_name env.mattermost_team) cid (by rw [hres])
      rwa [hres] at h2
    have h2 : allOk plat tr2.dropLast := by
      have h3 := deliver_message_allOk_dropLast env plat cid message file_
      rwa [hdel] at h3
    exact allOk_dropLast_append plat tr tr2 h1 h2

lemma hub_ok_allOk (env : Env) (plat : Platform) (message channel : String)
    (file_ : Option (List Nat)) (team_name : Option String) (j : MmResponse)
    (hok : (hub_post_message env plat message channel file_ team_name).2 = .ok j) :
    allOk plat (hub_post_message env plat message channel file_ team_name).1 := by
  rcases hub_post_message_char env plat message channel file_ team_name with
    ⟨tr, e, hres, h⟩ | ⟨tr, cid, tr2, o2, hres, hdel, h⟩
  · rw [h] at hok; exact absurd hok (by simp)
  · have ho2 : o2 = .ok j := by rw [h] at hok; simpa using hok
    rw [h]
    have h1 : allOk plat tr := by
      have h2 := resolve_channel_ok_allOk env plat channel
        (pyOr team_name env.mattermost_team) cid (by rw [hres])
      rwa [hres] at h2
    have h2 : allOk plat tr2 := by
      have h3 := deliver_message_ok_allOk env plat cid message file_ j
        (by rw [hdel, ho2])
      rwa [hdel] at h3
    exact allOk_append plat tr tr2 h1 h2

/-! ## C5 -/

/-- C5: resolution and delivery are fail-fast.  In every run, every request
except possibly the last received a 2xx response (so the first failing call
is always the last call made, aborting the chain), and a successful run
consists of 2xx responses only; in particular, when resolution succeeded but
the attachment upload answers a non-2xx status `s`, the pipeline stops with
the uncaught HTTP status error and no post-creation request is ever made. -/
theorem C5_fail_fast_upload_aborts (env : Env) (plat : Platform)
    (message channel : String) (file_ : Option (List Nat))
    (team_name : Option String) :
    allOk plat (hub_post_message env plat message channel file_ team_name).1.dropLast
    ∧ (∀ j, (hub_post_message env plat message channel file_ team_name).2 = .ok j →
        allOk plat (hub_post_message env plat message channel file_ team_name).1)
    ∧ (∀ B T cid tr0 s,
        env.mattermost_url = some B → env.mattermost_token = some T →
        resolve_channel env plat channel (pyOr team_name env.mattermost_team)
          = (tr0, .ok cid) →
        pyTruthyBytes file_ = true →
        plat (reqUpload B T cid (file_.getD [])) = .err s →
        hub_post_message env plat message channel file_ team_name =
          (tr0 ++ [reqUpload B T cid (file_.getD [])],
           .error (.httpStatusError s))
        ∧ ∀ c ∈ tr0 ++ [reqUpload B T cid (file_.getD [])],
            isPostCreation c = false) := by
  refine ⟨hub_allOk_dropLast env plat message channel file_ team_name,
    fun j hok => hub_ok_allOk env plat message channel file_ team_name j hok,
    ?_⟩
  intro B T cid tr0 s hB hT hres hf hup
  have h1 := mm_api_call_err env plat "post" "files"
    (.fileData cid "upload.png" (file_.getD [])) B T s hB hT
    (by simpa [reqUpload] using hup)
  have hdel : deliver_message env plat cid message file_ =
      ([reqUpload B T cid (file_.getD [])], .error (.httpStatusError s)) := by
    simp [deliver_message, hf, h1, reqUpload]
  have hhub : hub_post_message env plat message channel file_ team_name =
      (tr0 ++ [reqUpload B T cid (file_.getD [])],
       .error (.httpStatusError s)) := by
    simp [hub_post_message, hres, hdel]
  refine ⟨hhub, ?_⟩
  intro c hc
  rcases List.mem_append.mp hc with hc | hc
  · have hmem : c ∈ (resolve_channel env plat channel
        (pyOr team_name env.mattermost_team)).1 := by rw [hres]; exact hc
    exact (resolve_channel_trace_noPost env plat channel
      (pyOr team_name env.mattermost_team) c hmem).1
  · simp only [List.mem_singleton] at hc
    rw [hc]
    rfl

theorem C5_witness :
    hub_post_message envA platUploadFail "m" "general" (some [7]) none =
      ([reqMe "A/" "tok", namedReqLookup "A/" "tok" (some "eng") "general",
        namedReqJoin "A/" "tok" "chG" "me", reqUpload "A/" "tok" "chG" [7]],
       .error (.httpStatusError 500)) :=
  ((C5_fail_fast_upload_aborts envA platUploadFail "m" "general" (some [7])
      none).2.2 "A/" "tok" "chG"
    [reqMe "A/" "tok", namedReqLookup "A/" "tok" (some "eng") "general",
     namedReqJoin "A/" "tok" "chG" "me"]
    500 rfl rfl (by decide) rfl (by decide)).1

/-! ## C6 -/

/-- C6: in every execution, a post-creation request occurs in the trace only
after the membership-ensuring step of the branch taken — the direct-channel
creation call for a direct-message destination, the channel-join call for a
named channel.  No run issues a post-creation request before that step. -/
theorem C6_post_only_after_membership (env : Env) (plat : Platform)
    (message channel : String) (file_ : Option (List Nat))
    (team_name : Option String) :
    postsOnlyAfter (ensureMember channel)
      (hub_post_message env plat message channel file_ team_name).1 = true := by
  rcases hub_post_message_char env plat message channel file_ team_name with
    ⟨tr, e, hres, h⟩ | ⟨tr, cid, tr2, o2, hres, hdel, h⟩
  · rw [h]
    refine postsOnlyAfter_of_noPost _ _ ?_
    intro c hc
    have hmem : c ∈ (resolve_channel env plat channel
        (pyOr team_name env.mattermost_team)).1 := by rw [hres]; exact hc
    exact (resolve_channel_trace_noPost env plat channel
      (pyOr team_name env.mattermost_team) c hmem).1
  · rw [h]
    refine postsOnlyAfter_append_of_any _ _ _ ?_ ?_
    · intro c hc
      have hmem : c ∈ (resolve_channel env plat channel
          (pyOr team_name env.mattermost_team)).1 := by rw [hres]; exact hc
      exact (resolve_channel_trace_noPost env plat channel
        (pyOr team_name env.mattermost_team) c hmem).1
    · have h1 := resolve_channel_ok_anyEnsure env plat channel
        (pyOr team_name env.mattermost_team) cid (by rw [hres])
      rwa [hres] at h1


/-! ## C4 -/

/-- C4: in every successful delivery, if no (truthy) attachment was supplied
the trace contains no upload request and the created post carries the empty
file-reference list, and if an attachment was supplied the trace contains
exactly one upload request and the created post references exactly one file
id. -/
theorem C4_file_reference_counts (env : Env) (plat : Platform)
    (message channel : String) (file_ : Option (List Nat))
    (team_name : Option String) (j : MmResponse)
    (hok : (hub_post_message env plat message channel file_ team_name).2 = .ok j) :
    (pyTruthyBytes file_ = false →
       (hub_post_message env plat message channel file_ team_name).1.countP
         isUpload = 0
       ∧ postedFileIds
           (hub_post_message env plat message channel file_ team_name).1
         = some [])
    ∧ (pyTruthyBytes file_ = true →
       (hub_post_message env plat message channel file_ team_name).1.countP
         isUpload = 1
       ∧ ∃ fid, postedFileIds
           (hub_post_message env plat message channel file_ team_name).1
         = some [fid]) := by
  rcases hub_post_message_char env plat message channel file_ team_name with
    ⟨tr, e, hres, h⟩ | ⟨tr, cid, tr2, o2, hres, hdel, h⟩
  · rw [h] at hok; exact absurd hok (by simp)
  have hnopost : ∀ c ∈ tr, isPostCreation c = false := by
    intro c hc
    have hmem : c ∈ (resolve_channel env plat channel
        (pyOr team_name env.mattermost_team)).1 := by rw [hres]; exact hc
    exact (resolve_channel_trace_noPost env plat channel
      (pyOr team_name env.mattermost_team) c hmem).1
  have hnoup : ∀ c ∈ tr, isUpload c = false := by
    intro c hc
    have hmem : c ∈ (resolve_channel env plat channel
        (pyOr team_name env.mattermost_team)).1 := by rw [hres]; exact hc
    exact (resolve_channel_trace_noPost env plat channel
      (pyOr team_name env.mattermost_team) c hmem).2
  have hcount0 : tr.countP isUpload = 0 :=
    List.countP_eq_zero.mpr fun c hc => by simp [hnoup c hc]
  have ho2 : o2 = .ok j := by rw [h] at hok; simpa using hok
  have htr : (hub_post_message env plat message channel file_ team_name).1
      = tr ++ tr2 := by rw [h]
  rcases deliver_message_char env plat cid message file_ with
    ⟨hd, _⟩ | ⟨hd, _⟩ |
    ⟨B, T, hB, hT,
      ⟨hf, ⟨s, hp, hd⟩ | ⟨j2, hp, hd⟩⟩ |
      ⟨hf, ⟨s, hp, hd⟩ |
        ⟨up, hu, ⟨hfi, hd⟩ | ⟨fid, rest, hfi, ⟨s, hp, hd⟩ | ⟨j2, hp, hd⟩⟩⟩⟩⟩ <;>
  rw [hdel] at hd <;>
  obtain ⟨htr2, ho⟩ := Prod.mk.inj hd <;>
  rw [ho2] at ho
  · simp at ho
  · simp at ho
  · simp at ho
  · -- no attachment, post created
    constructor
    · intro hf2
      rw [htr, htr2]
      constructor
      · rw [List.countP_append, hcount0]
        simp [List.countP_cons, List.countP_nil, isUpload, reqPosts]
      · rw [postedFileIds_append_of_noPost tr _ hnopost]
        simp [postedFileIds, reqPosts]
    · intro hf2
      rw [hf] at hf2
      cases hf2
  · simp at ho
  · simp at ho
  · simp at ho
  · -- attachment, upload then post created
    constructor
    · intro hf2
      rw [hf] at hf2
      cases hf2
    · intro hf2
      rw [htr, htr2]
      constructor
      · rw [List.countP_append, hcount0]
        simp [List.countP_cons, List.countP_nil, isUpload, reqUpload, reqPosts]
      · refine ⟨fid, ?_⟩
        rw [postedFileIds_append_of_noPost tr _ hnopost]
        simp [postedFileIds, reqUpload, reqPosts]

theorem C4_witness :
    ((hub_post_message envA platD "m" "@alice" none none).1.countP isUpload = 0
      ∧ postedFileIds (hub_post_message envA platD "m" "@alice" none none).1
        = some [])
    ∧ ((hub_post_message envA platD "m" "@alice" (some [1]) none).1.countP
         isUpload = 1
      ∧ ∃ fid, postedFileIds
          (hub_post_message envA platD "m" "@alice" (some [1]) none).1
        = some [fid]) :=
  ⟨(C4_file_reference_counts envA platD "m" "@alice" none none ⟨"post9", []⟩
      (by decide)).1 rfl,
   (C4_file_reference_counts envA platD "m" "@alice" (some [1]) none
      ⟨"post9", []⟩ (by decide)).2 rfl⟩

/-! ## C7 -/

/-- C7: resolving the same valid direct-message destination twice — modelled
as two runs whose platform responses may differ, but agree on all GET
lookups and answer direct-channel creation identically in both runs (the
platform idempotence of `channels/direct`) — produces the same channel id
both times. -/
theorem C7_direct_resolution_idempotent (env : Env) (p q : Platform)
    (channel : String) (team_name : Option String) (cid1 cid2 : String)
    (hch : py_startswith channel "@" = true)
    (hgets : ∀ r : WireRequest, r.method = "get" → q r = p r)
    (hdirect : ∀ r : WireRequest, isDirectCreate r = true → q r = p r)
    (h1 : (resolve_channel env p channel
             (pyOr team_name env.mattermost_team)).2 = .ok cid1)
    (h2 : (resolve_channel env q channel
             (pyOr team_name env.mattermost_team)).2 = .ok cid2) :
    cid1 = cid2 := by
  have hqget : ∀ path body, mm_api_call env q "get" path body
      = mm_api_call env p "get" path body := by
    intro path body
    cases hu : env.mattermost_url with
    | none =>
        rw [mm_api_call_none_url env q "get" path body hu,
          mm_api_call_none_url env p "get" path body hu]
    | some B =>
      cases ht : env.mattermost_token with
      | none =>
          rw [mm_api_call_none_token env q "get" path body B hu ht,
            mm_api_call_none_token env p "get" path body B hu ht]
      | some T =>
          simp only [mm_api_call, hu, ht]
          rw [hgets ⟨"get", B ++ path, "Bearer " ++ T, body⟩ rfl]
  have hqdir : ∀ path a b, mm_api_call env q "post" path (.jsonPair a b)
      = mm_api_call env p "post" path (.jsonPair a b) := by
    intro path a b
    cases hu : env.mattermost_url with
    | none =>
        rw [mm_api_call_none_url env q "post" path _ hu,
          mm_api_call_none_url env p "post" path _ hu]
    | some B =>
      cases ht : env.mattermost_token with
      | none =>
          rw [mm_api_call_none_token env q "post" path _ B hu ht,
            mm_api_call_none_token env p "post" path _ B hu ht]
      | some T =>
          simp only [mm_api_call, hu, ht]
          rw [hdirect ⟨"post", B ++ path, "Bearer " ++ T, .jsonPair a b⟩ rfl]
  have hrdeq : ∀ me, resolve_direct env q channel
      (pyOr team_name env.mattermost_team) me
      = resolve_direct env p channel (pyOr team_name env.mattermost_team) me := by
    intro me
    simp only [resolve_direct, hqget, hqdir]
  have hrceq : resolve_channel env q channel (pyOr team_name env.mattermost_team)
      = resolve_channel env p channel (pyOr team_name env.mattermost_team) := by
    simp only [resolve_channel, hqget, hch, if_true, hrdeq]
  rw [hrceq] at h2
  rw [h1] at h2
  exact Except.ok.inj h2

theorem C7_witness : ("dm1" : String) = "dm1" :=
  C7_direct_resolution_idempotent envA platD platD2 "@alice" none "dm1" "dm1"
    (by decide)
    (by
      intro r h
      unfold platD2
      refine if_neg ?_
      rintro ⟨h1, _⟩
      rw [h] at h1
      exact absurd h1 (by decide))
    (by
      intro r h
      unfold platD2
      refine if_neg ?_
      rintro ⟨_, h2⟩
      unfold isDirectCreate at h
      unfold isPostCreation at h2
      cases hb : r.body <;> rw [hb] at h h2 <;> simp_all)
    (by decide) (by decide)

/-! ## C8 -/

/-- C8 as stated is false on the code: `mm_api_call` reads `MATTERMOST_URL`
and `MATTERMOST_TOKEN` from the ambient process environment on every call,
so two runs with identical arguments and an identical platform but a
different environment produce different platform calls and different
results. -/
theorem C8_counterexample :
    (hub_post_message envA platN "m" "general" none none).1 ≠
      (hub_post_message envB platN "m" "general" none none).1
    ∧ (hub_post_message envA platN "m" "general" none none).2 ≠
      (hub_post_message envB platN "m" "general" none none).2 := by
  decide

/-- C8 amended: the pipeline's bot token and base URL come from the ambient
environment read during the request, not from an injected configuration
value: every wire request of every run carries a URL extending the
environment's `MATTERMOST_URL` and the bearer header built from the
environment's `MATTERMOST_TOKEN`. -/
theorem C8_amended_env_read_per_call (env : Env) (plat : Platform)
    (message channel : String) (file_ : Option (List Nat))
    (team_name : Option String) (B T : String)
    (hB : env.mattermost_url = some B) (hT : env.mattermost_token = some T) :
    ∀ c ∈ (hub_post_message env plat message channel file_ team_name).1,
      (∃ p2, c.url = B ++ p2) ∧ c.auth = "Bearer " ++ T := by
  rcases hub_post_message_char env plat message channel file_ team_name with
    ⟨tr, e, hres, h⟩ | ⟨tr, cid, tr2, o2, hres, hdel, h⟩
  · rw [h]
    intro c hc
    have hmem : c ∈ (resolve_channel env plat channel
        (pyOr team_name env.mattermost_team)).1 := by rw [hres]; exact hc
    exact resolve_channel_trace_wire env plat channel
      (pyOr team_name env.mattermost_team) B T hB hT c hmem
  · rw [h]
    intro c hc
    rcases List.mem_append.mp hc with hc | hc
    · have hmem : c ∈ (resolve_channel env plat channel
          (pyOr team_name env.mattermost_team)).1 := by rw [hres]; exact hc
      exact resolve_channel_trace_wire env plat channel
        (pyOr team_name env.mattermost_team) B T hB hT c hmem
    · have hmem : c ∈ (deliver_message env plat cid message file_).1 := by
        rw [hdel]; exact hc
      exact deliver_message_trace_wire env plat cid message file_ B T hB hT c hmem

theorem C8_amended_witness :
    (∃ p2, (reqMe "A/" "tok").url = "A/" ++ p2)
    ∧ (reqMe "A/" "tok").auth = "Bearer " ++ "tok" :=
  C8_amended_env_read_per_call envA platN "m" "general" none none "A/" "tok"
    rfl rfl (reqMe "A/" "tok") (by decide)

/-! ## C9 -/

/-- C9: a present but empty attachment (zero-length bytes) is falsy for the
`if file_:` test, so the pipeline behaves exactly as if no attachment had
been supplied — same requests, same result. -/
theorem C9_empty_attachment_like_none (env : Env) (plat : Platform)
    (message channel : String) (team_name : Option String) :
    hub_post_message env plat message channel (some []) team_name =
      hub_post_message env plat message channel none team_name := rfl

/-! ## C10 -/

/-- C10: the caller-side `post` with no service URL available (argument or
environment) or no API token available raises `ValueError` before building
any HTTP request, so a misconfigured client performs no network call. -/
theorem C10_missing_config_no_request (cenv : ClientEnv)
    (message channel : String) (attachment : Option (List Nat))
    (service_url token : Option String)
    (h : pyTruthy (pyOr service_url cenv.jupyterpost_url) = false ∨
         pyTruthy (pyOr token cenv.jpy_api_token) = false) :
    ∃ msg, post cenv message channel attachment service_url token
      = .error msg := by
  rcases h with h | h
  · exact ⟨"No service URL given", by simp [post, h]⟩
  · by_cases h2 : pyTruthy (pyOr service_url cenv.jupyterpost_url) = false
    · exact ⟨"No service URL given", by simp [post, h2]⟩
    · exact ⟨"No API token given", by simp [post, h2, h]⟩

theorem C10_witness :
    ∃ msg, post ⟨none, none⟩ "m" "town-square" none none none = .error msg :=
  C10_missing_config_no_request ⟨none, none⟩ "m" "town-square" none none none
    (Or.inl rfl)

end Jupyterpost
